import Mathlib

/-!
Shallow embedding of the typed HTTP request pipeline of
`src/utils/core/ApiClient.ts` (class `ApiClient`), together with the pieces of
the JavaScript runtime it relies on (string primitives, `Headers`, the
`AbortController` signal, the `fetch`-style transport).  Machine-level JS
details are modelled explicitly: string operations work on the underlying
character lists, truthiness tests are spelled out, and the transport, logger
and query-string serializer are the injectable collaborators the spec names.
-/

namespace NubiLab

/-- JSON-like JavaScript values (the payloads the client parses and
serializes).  Numbers are modelled as integers, which covers every payload the
claims mention. -/
inductive Js where
  | null
  | bool (b : Bool)
  | num (n : Int)
  | str (s : String)
  | arr (elems : List Js)
  | obj (fields : List (String × Js))

/-- Escapes backslash and double quote, the JSON string escapes needed for the
values in scope. -/
def jsStringEscape (s : String) : String :=
  String.mk (s.data.foldr
    (fun c acc =>
      if c = '\\' then '\\' :: '\\' :: acc
      else if c = '\"' then '\\' :: '\"' :: acc
      else c :: acc) [])

mutual
/-- Model of `JSON.stringify` on the `Js` universe (field order preserved, as
in JavaScript). -/
def Js.stringify : Js → String
  | .null => "null"
  | .bool true => "true"
  | .bool false => "false"
  | .num n => toString n
  | .str s => "\"" ++ jsStringEscape s ++ "\""
  | .arr es => "[" ++ Js.stringifyList es ++ "]"
  | .obj fs => "\x7b" ++ Js.stringifyFields fs ++ "\x7d"

/-- Comma-joined serialization of a JSON array body. -/
def Js.stringifyList : List Js → String
  | [] => ""
  | [e] => Js.stringify e
  | e :: rest => Js.stringify e ++ "," ++ Js.stringifyList rest

/-- Comma-joined serialization of JSON object fields. -/
def Js.stringifyFields : List (String × Js) → String
  | [] => ""
  | [(k, v)] => "\"" ++ jsStringEscape k ++ "\":" ++ Js.stringify v
  | (k, v) :: rest =>
      "\"" ++ jsStringEscape k ++ "\":" ++ Js.stringify v ++ "," ++
        Js.stringifyFields rest
end

/-- JS `String.prototype.startsWith`. -/
def jsStartsWith (s pre : String) : Bool := pre.data.isPrefixOf s.data

/-- JS `String.prototype.endsWith`. -/
def jsEndsWith (s suf : String) : Bool := suf.data.isSuffixOf s.data

/-- JS `String.prototype.includes`. -/
def jsIncludes (s sub : String) : Bool := decide (sub.data <:+: s.data)

/-- JS `String.prototype.slice(1)`: drops the first character. -/
def jsSliceFrom1 (s : String) : String := String.mk (s.data.drop 1)

/-- JS `String.prototype.toLowerCase` (ASCII range, which covers header names
and values in scope). -/
def jsToLower (s : String) : String := String.mk (s.data.map Char.toLower)

/-- JS `String.prototype.trim`: strips whitespace from both ends. -/
def jsTrim (s : String) : String :=
  String.mk
    (((s.data.dropWhile Char.isWhitespace).reverse.dropWhile
        Char.isWhitespace).reverse)

/-- Header lists model the JS `Headers` object: association lists whose keys
are stored lowercased, looked up case-insensitively. -/
abbrev HeaderList := List (String × String)

/-- `Headers.prototype.set`: replaces the value under the (lowercased) key in
place, appending when absent. -/
def hset : HeaderList → String → String → HeaderList
  | [], k, v => [(jsToLower k, v)]
  | (k0, v0) :: rest, k, v =>
      if k0 = jsToLower k then (k0, v) :: rest
      else (k0, v0) :: hset rest k v

/-- `Headers.prototype.append` (used by the `Headers` constructor): combines
duplicate keys with a comma separator. -/
def happend : HeaderList → String → String → HeaderList
  | [], k, v => [(jsToLower k, v)]
  | (k0, v0) :: rest, k, v =>
      if k0 = jsToLower k then (k0, v0 ++ ", " ++ v) :: rest
      else (k0, v0) :: happend rest k v

/-- `Headers.prototype.get`: case-insensitive lookup, `none` models `null`. -/
def hget (hs : HeaderList) (k : String) : Option String :=
  (hs.find? (fun p => p.1 = jsToLower k)).map (fun p => p.2)

/-- `new Headers(init)`: normalizes a raw header init list. -/
def headersOfInit (init : HeaderList) : HeaderList :=
  init.foldl (fun hs kv => happend hs kv.1 kv.2) []

/-- The closed locale enumeration (`type Locale = "en" | "es"`). -/
inductive Locale where
  | en
  | es
deriving Repr, DecidableEq

/-- A thrown JavaScript error, identified by its `name` (how the pipeline
discriminates errors in its `catch` block) and `message`. -/
structure JsError where
  name : String
  message : String := ""
deriving Repr, DecidableEq

/-- Best-effort extracted body of a non-2xx response (`ApiError.body`):
JSON-parsed, raw text, or `null` when parsing failed (and `null` on the
timeout path). -/
inductive ErrBody where
  | jsonBody (j : Js)
  | textBody (s : String)
  | nullBody

/-- The `ApiError` class of `ApiClient.ts`: status, statusText, localized
message, best-effort body, timeout flag.  Its JS `name` property is
`"ApiError"`. -/
structure ApiError where
  status : Nat
  statusText : String
  message : String
  body : ErrBody := .nullBody
  isTimeout : Bool := false

/-- `DEFAULT_ERROR_MESSAGES` of `ApiClient.ts`, as per-locale association
lists from status code to message. -/
def DEFAULT_ERROR_MESSAGES : Locale → List (Nat × String)
  | .es =>
      [(400, "La solicitud es inválida. Verifica los datos enviados."),
       (401, "Necesitas iniciar sesión para continuar."),
       (403, "No tienes permisos para realizar esta acción."),
       (404, "El recurso solicitado no fue encontrado."),
       (408, "La solicitud tardó demasiado en responder."),
       (429, "Demasiadas solicitudes. Intenta nuevamente más tarde."),
       (500, "Ocurrió un error interno en el servidor."),
       (502, "Puerta de enlace inválida."),
       (503, "Servicio no disponible temporalmente."),
       (504, "Tiempo de espera agotado.")]
  | .en =>
      [(400, "Invalid request. Please check your data."),
       (401, "You must be signed in to continue."),
       (403, "You don\x27t have permission for this action."),
       (404, "Resource not found."),
       (408, "Request timeout."),
       (429, "Too many requests. Try again later."),
       (500, "Internal server error."),
       (502, "Bad gateway."),
       (503, "Service unavailable."),
       (504, "Gateway timeout.")]

/-- `GENERIC_ERROR_MESSAGE` of `ApiClient.ts`: the templated fallback, with
surrounding whitespace trimmed.  The record is total on `Locale`, so the
source's `?? GENERIC_ERROR_MESSAGE.es` default can never trigger. -/
def GENERIC_ERROR_MESSAGE (loc : Locale) (status : Nat) (text : String) :
    String :=
  match loc with
  | .es => jsTrim ("Error de red (" ++ toString status ++ " " ++ text ++ ")")
  | .en => jsTrim ("Network error (" ++ toString status ++ " " ++ text ++ ")")

/-- A request body as typed in `RequestOptions` (`FormData | string | Blob |
ArrayBuffer | Record<string, unknown>`).  The opaque binary and multipart
payloads carry an identity so pass-through is observable. -/
inductive Body where
  | formData (id : Nat)
  | str (s : String)
  | blob (id : Nat)
  | arrayBuffer (id : Nat)
  | obj (fields : List (String × Js))

/-- A body as handed to the transport after `prepareBody`: unchanged payloads
or the JSON-stringified fallback (a string). -/
inductive PreparedBody where
  | formData (id : Nat)
  | str (s : String)
  | blob (id : Nat)
  | arrayBuffer (id : Nat)

/-- Which `AbortSignal` object the dispatched `RequestInit` carries: the
pipeline's internal controller's signal, or a caller-created one. -/
inductive SignalRef where
  | internalSignal
  | callerSignal (id : Nat)
deriving Repr, DecidableEq

/-- The dispatched `RequestInit` (the fields the pipeline builds or that the
claims observe). -/
structure Init where
  method : Option String := none
  headers : HeaderList := []
  body : Option PreparedBody := none
  signal : SignalRef := .internalSignal

/-- A `Response`-like value produced by the transport (spec §6): status line,
headers, and the `.json()` / `.text()` body readers, modelled as the values
those readers settle to (`json` is `.error e` when parsing rejects with
`e`). -/
structure Response where
  status : Nat
  statusText : String := ""
  headers : HeaderList := []
  json : Except JsError Js := .error ⟨"SyntaxError", "Unexpected end of JSON input"⟩
  text : String := ""

/-- `Response.ok` of the platform `Response`: status in the 2xx range. -/
def Response.ok (r : Response) : Bool := decide (200 ≤ r.status ∧ r.status < 300)

/-- How one transport call relates to the pipeline's timeout race: it settles
with a response before the effective timeout, rejects before the effective
timeout, or does not settle in time (`hangs`, the branch in which the
`withTimeout` timer fires first). -/
inductive TransportOutcome where
  | settles (r : Response)
  | rejects (e : JsError)
  | hangs

/-- A transport behaviour: what the call `fetchImpl(url, init)` raced against
the effective timeout does.  The third argument is that effective timeout, so
behaviours can depend on how long the race allows. -/
abbrev Transport := String → Init → Nat → TransportOutcome

/-- `ApiClientConfig` after the constructor's defaulting: locale defaults to
`es`, timeout to 15000ms, headers and overrides to empty.  The transport is
passed per-request in this model; `toQueryString` is the query-string
serializer collaborator (spec §6) the pipeline consumes, and the logger is
modelled by whether a handle is configured. -/
structure ApiClientConfig where
  baseUrl : String
  defaultHeaders : HeaderList := []
  locale : Locale := .es
  errorMessages : Locale → List (Nat × String) := fun _ => []
  timeoutMs : Nat := 15000
  hasLogger : Bool := false
  reqInterceptor : Option (String → Init → String × Init) := none
  respInterceptor : Option (Response → Response) := none
  toQueryString : Js → String := fun _ => ""

/-- `RequestOptions`: the per-call options the pipeline destructures.  The
`signal` field is the caller's own cancellation token, part of the spread
`...rest`. -/
structure RequestOptions where
  method : Option String := none
  headers : Option HeaderList := none
  searchParams : Option Js := none
  body : Option Body := none
  errorLocale : Option Locale := none
  timeoutMs : Option Nat := none
  signal : Option SignalRef := none

/-- A logger event emitted by the pipeline (the logger collaborator is
side-effect only). -/
inductive LogEvent where
  | debugRequest (url : String)
  | debugResponse (status : Nat)
  | errorLog (name : String)
deriving Repr, DecidableEq

/-- The pipeline's one Outcome per request: a success value (`undefined`,
parsed JSON, or text), a thrown `ApiError`, or any other rejection
re-raised as-is. -/
inductive Value where
  | undef
  | jsonVal (j : Js)
  | textVal (s : String)

/-- Result discriminator for one request. -/
inductive Outcome where
  | ok (v : Value)
  | clientError (e : ApiError)
  | raised (e : JsError)

/-- Everything one `request()` call produces that the claims observe: the
final URL and `RequestInit` handed to the transport, the Outcome, the log
events, and whether the internal controller's signal ever fired. -/
structure RequestTrace where
  url : String
  init : Init
  outcome : Outcome
  logs : List LogEvent
  internalAbortFired : Bool

namespace ApiClient

/-- JS truthiness of the destructured `body` option: falsy iff absent
(`undefined`) or the empty string — `FormData`, `Blob`, `ArrayBuffer` and
plain objects are always truthy. -/
def bodyFalsy : Option Body → Bool
  | none => true
  | some (.str s) => s = ""
  | some _ => false

/-- `ApiClient.prepareBody`: `undefined` stays absent (and so does the falsy
empty string), `FormData`/string/`Blob`/`ArrayBuffer` pass through unchanged,
anything else is `JSON.stringify`-ed. -/
def prepareBody (body : Option Body) : Option PreparedBody :=
  if bodyFalsy body then none
  else
    match body with
    | some (.formData i) => some (.formData i)
    | some (.str s) => some (.str s)
    | some (.blob i) => some (.blob i)
    | some (.arrayBuffer i) => some (.arrayBuffer i)
    | some (.obj fs) => some (.str (Js.stringify (.obj fs)))
    | none => none

/-- JS truthiness of the prepared body (the `preparedBody &&` guard): falsy
iff absent or the empty string. -/
def preparedFalsy : Option PreparedBody → Bool
  | none => true
  | some (.str s) => s = ""
  | some _ => false

/-- The `body instanceof FormData` test on the raw body option. -/
def isFormData : Option Body → Bool
  | some (.formData _) => true
  | _ => false

/-- `ApiClient.mergeHeaders`: config defaults normalized through the
`Headers` constructor, then each per-call override written with `set`
(case-insensitive keys, last write wins). -/
def mergeHeaders (defaults : HeaderList) (overrides : Option HeaderList) :
    HeaderList :=
  let headers := headersOfInit defaults
  match overrides with
  | none => headers
  | some ov =>
      (headersOfInit ov).foldl (fun acc kv => hset acc kv.1 kv.2) headers

/-- The constructor line
`new URL(baseUrl.endsWith("/") ? baseUrl : baseUrl + "/")`. -/
def normalizeBaseUrl (b : String) : String :=
  if jsEndsWith b "/" then b else b ++ "/"

/-- The scheme-and-host part of an absolute URL (`url.origin`), used to model
resolution of absolute-path references. -/
def urlOrigin (base : String) : String :=
  match base.splitOn "://" with
  | [sch, rest] =>
      sch ++ "://" ++ String.mk (rest.data.takeWhile (fun c => c ≠ '/'))
  | _ => base

/-- Model of the WHATWG resolution performed by `new URL(rel, base)` — an
external platform API — for absolute `scheme://host/...` bases ending in a
separator and carrying no query or fragment, and for relative references
without dot-segments, query or fragment: a reference with a scheme replaces
the URL, `//`-references keep only the scheme, absolute paths resolve against
the origin, and anything else is appended to the base directory. -/
def resolveURL (rel base : String) : String :=
  if jsIncludes rel "://" then rel
  else if jsStartsWith rel "//" then
    String.mk (base.data.takeWhile (fun c => c ≠ ':')) ++ ":" ++ rel
  else if jsStartsWith rel "/" then urlOrigin base ++ rel
  else base ++ rel

/-- `ApiClient.buildUrl`: strips one leading separator from `path`, resolves
against the normalized base, then appends the serialized query parameters —
joining with `&` when the resolved URL already carries a query string
(`url.search` is falsy exactly when empty). -/
def buildUrl (baseUrl : String) (qss : Js → String) (path : String)
    (params : Option Js) : String :=
  let normalized := if jsStartsWith path "/" then jsSliceFrom1 path else path
  let url := resolveURL normalized (normalizeBaseUrl baseUrl)
  match params with
  | none => url
  | some ps =>
      let queryString := qss ps
      if queryString = "" then url
      else
        let pre := String.mk (url.data.takeWhile (fun c => c ≠ '?'))
        let search := String.mk (url.data.dropWhile (fun c => c ≠ '?'))
        if search = "" then pre ++ "?" ++ queryString
        else pre ++ search ++ "&" ++ queryString

/-- First-occurrence-preserving de-duplication, the observable behaviour of
`Array.from(new Set(...))`. -/
def dedupFirst (ls : List Locale) : List Locale :=
  ls.foldl (fun acc l => if l ∈ acc then acc else acc ++ [l]) []

/-- `ApiClient.getLocalePreference`:
`Array.from(new Set([override, this.locale, "es", "en"].filter(Boolean)))`. -/
def getLocalePreference (cfgLocale : Locale) (override : Option Locale) :
    List Locale :=
  dedupFirst (override.toList ++ [cfgLocale, .es, .en])

/-- The per-locale dictionary `{...DEFAULT_ERROR_MESSAGES[loc],
...(this.errorMessages[loc] ?? {})}` looked up at `status`: a configured
override shadows the built-in default. -/
def mergedDictLookup (overrides : Locale → List (Nat × String)) (loc : Locale)
    (status : Nat) : Option String :=
  match (overrides loc).lookup status with
  | some v => some v
  | none => (DEFAULT_ERROR_MESSAGES loc).lookup status

/-- The `for (const loc of locales)` loop of `ApiClient.resolveErrorMessage`:
returns the first JS-truthy dictionary entry (`if (dict[status])`), so an
absent or empty entry falls through to the next locale. -/
def resolveFromLocales (overrides : Locale → List (Nat × String))
    (status : Nat) : List Locale → Option String
  | [] => none
  | loc :: rest =>
      match mergedDictLookup overrides loc status with
      | some m => if m = "" then resolveFromLocales overrides status rest else some m
      | none => resolveFromLocales overrides status rest

/-- `ApiClient.resolveErrorMessage`: first truthy hit over the locale
preference list, else the generic templated message keyed by the configured
locale. -/
def resolveErrorMessage (cfg : ApiClientConfig) (status : Nat)
    (statusText : String) (overrideLocale : Option Locale) : String :=
  match resolveFromLocales cfg.errorMessages status
      (getLocalePreference cfg.locale overrideLocale) with
  | some m => m
  | none => GENERIC_ERROR_MESSAGE cfg.locale status statusText

/-- `ApiClient.toApiError`: best-effort body extraction (JSON when the
`content-type` contains `"json"` — case-sensitively here, unlike the success
path — else text; a rejecting `json()` reader degrades to a `null` body), then
message resolution.  The `text()` reader is modelled as always settling. -/
def toApiError (cfg : ApiClientConfig) (r : Response)
    (locale : Option Locale) : ApiError :=
  let type := (hget r.headers "content-type").getD ""
  let body : ErrBody :=
    if jsIncludes type "json" then
      match r.json with
      | .ok j => .jsonBody j
      | .error _ => .nullBody
    else .textBody r.text
  { status := r.status, statusText := r.statusText,
    message := resolveErrorMessage cfg r.status r.statusText locale,
    body := body, isTimeout := false }

/-- An error reaching the `catch (err)` block of `ApiClient.request`: either
an `ApiError` (thrown by `withTimeout`'s timer or by the non-2xx branch) or
any other JS error. -/
inductive CaughtErr where
  | fromApi (e : ApiError)
  | fromJs (e : JsError)

/-- The JS `err.name` the catch block inspects. -/
def errName : CaughtErr → String
  | .fromApi _ => "ApiError"
  | .fromJs e => e.name

/-- The `new ApiError(408, "Timeout", "Request timeout", null, true)` value
thrown by `withTimeout`'s timer and by the `"AbortError"` re-mapping. -/
def timeoutApiError : ApiError :=
  { status := 408, statusText := "Timeout", message := "Request timeout",
    body := .nullBody, isTimeout := true }

/-- The `catch (err)` block of `ApiClient.request`: an `"AbortError"` is
re-mapped to the 408 timeout `ApiError` (without logging); every other error
is logged at error level and rethrown unchanged. -/
def applyCatch (hasLogger : Bool) (err : CaughtErr) :
    Outcome × List LogEvent :=
  if errName err = "AbortError" then
    (.clientError timeoutApiError, [])
  else
    (match err with
     | .fromApi e => .clientError e
     | .fromJs e => .raised e,
     if hasLogger then [.errorLog (errName err)] else [])

/-- JS truthiness of a `Headers.get` result: falsy iff `null` or the empty
string (the `!finalResponse.headers.get("content-length")` test). -/
def strOptFalsy : Option String → Bool
  | none => true
  | some s => s = ""

/-- The 2xx interpretation of `ApiClient.request` (after the response
interceptor): non-ok responses throw the `ApiError`; status 204 or a falsy
`content-length` resolves to `undefined` without touching the body; a
`content-type` matching `/json/i` resolves to the parsed JSON (a rejecting
reader falls into the catch block); anything else resolves to the text
body. -/
def interpret (cfg : ApiClientConfig) (opts : RequestOptions) (r : Response) :
    Outcome × List LogEvent :=
  if !r.ok then
    applyCatch cfg.hasLogger (.fromApi (toApiError cfg r opts.errorLocale))
  else if r.status = 204 || strOptFalsy (hget r.headers "content-length") then
    (.ok .undef, [])
  else
    let contentType := (hget r.headers "content-type").getD ""
    if jsIncludes (jsToLower contentType) "json" then
      match r.json with
      | .ok j =>
          (.ok (.jsonVal j),
           if cfg.hasLogger then [.debugResponse r.status] else [])
      | .error e => applyCatch cfg.hasLogger (.fromJs e)
    else
      (.ok (.textVal r.text),
       if cfg.hasLogger then [.debugResponse r.status] else [])

/-- The timeout race plus response handling: `withTimeout`'s timer losing the
race rejects with the 408 timeout `ApiError` (its JS name is `"ApiError"`, so
the catch block logs and rethrows it); a transport rejection goes to the
catch block; a settled response is run through the optional response
interceptor and interpreted. -/
def dispatch (cfg : ApiClientConfig) (opts : RequestOptions) :
    TransportOutcome → Outcome × List LogEvent
  | .hangs => applyCatch cfg.hasLogger (.fromApi timeoutApiError)
  | .rejects e => applyCatch cfg.hasLogger (.fromJs e)
  | .settles r0 =>
      let r := match cfg.respInterceptor with
        | some f => f r0
        | none => r0
      interpret cfg opts r

/-- The `RequestInit` built by `ApiClient.request` before the request
interceptor: merged headers with the unconditional
`headers.set("Content-Type", "application/json")` under the
`preparedBody && !(body instanceof FormData)` guard, the prepared body, and —
because the literal `{...rest, headers, body, signal}` writes `signal` after
spreading `rest` — always the internal controller's signal, discarding any
caller-supplied token. -/
def buildInit (cfg : ApiClientConfig) (opts : RequestOptions) : Init :=
  let headers0 := mergeHeaders cfg.defaultHeaders opts.headers
  let preparedBody := prepareBody opts.body
  let headers :=
    if !preparedFalsy preparedBody && !isFormData opts.body then
      hset headers0 "Content-Type" "application/json"
    else headers0
  { method := opts.method, headers := headers, body := preparedBody,
    signal := .internalSignal }

/-- `ApiClient.request`: build URL and init, run the request interceptor,
emit the debug log, race the transport against the effective timeout
`options.timeoutMs ?? config.timeoutMs`, and interpret the outcome.  The
source never calls `controller.abort()`, so `internalAbortFired` is `false`
on every path. -/
def request (cfg : ApiClientConfig) (transport : Transport) (path : String)
    (opts : RequestOptions) : RequestTrace :=
  let url0 := buildUrl cfg.baseUrl cfg.toQueryString path opts.searchParams
  let init0 := buildInit cfg opts
  let ui := match cfg.reqInterceptor with
    | some f => f url0 init0
    | none => (url0, init0)
  let timeout := opts.timeoutMs.getD cfg.timeoutMs
  let reqLogs := if cfg.hasLogger then [LogEvent.debugRequest ui.1] else []
  let step := dispatch cfg opts (transport ui.1 ui.2 timeout)
  { url := ui.1, init := ui.2, outcome := step.1, logs := reqLogs ++ step.2,
    internalAbortFired := false }

/-- `ApiClient.get`: fixes the method and forwards to `request`. -/
def get (cfg : ApiClientConfig) (transport : Transport) (path : String)
    (opts : RequestOptions := {}) : RequestTrace :=
  request cfg transport path { opts with method := some "GET" }

end ApiClient

/-!  Helper lemmas about the embedded JS primitives. -/

/-- Spec-side resolution of an error message (the words of spec §4.3/C4):
"for each locale in order, look up status code in the merged dictionary;
return the first dictionary hit". -/
def firstHitSpec (f : Locale → Option String) : List Locale → Option String
  | [] => none
  | loc :: rest =>
      match f loc with
      | some m => some m
      | none => firstHitSpec f rest

/-- The client configuration of the C1 failing input. -/
def cfgC1 : ApiClientConfig := { baseUrl := "https://api.test/" }

/-- The C1 failing input: a `GET /users` with a 100ms per-call timeout whose
transport never settles in time. -/
def traceC1 : RequestTrace :=
  ApiClient.request cfgC1 (fun _ _ _ => .hangs) "/users"
    { method := some "GET", timeoutMs := some 100 }

/-- The client configuration used by the C5 counterexample. -/
def cfgC5 : ApiClientConfig := { baseUrl := "https://api.test/" }

/-- The C5 request trace: the caller passes their own cancellation token. -/
def traceC5 : RequestTrace :=
  ApiClient.request cfgC5 (fun _ _ _ => .hangs) "/x"
    { signal := some (.callerSignal 7) }

/-- The client configuration used by the C3 counterexample. -/
def cfgC3 : ApiClientConfig := { baseUrl := "https://api.test/" }

/-- The C3 counterexample input: a POST with a string body whose per-call
headers already carry a Content-Type. -/
def traceC3 : RequestTrace :=
  ApiClient.request cfgC3 (fun _ _ _ => .hangs) "/x"
    { method := some "POST", headers := some [("Content-Type", "text/plain")],
      body := some (.str "hello") }

/-- The client configuration used by the C8 counterexample. -/
def cfgC8 : ApiClientConfig := { baseUrl := "https://api.test/" }

/-- The C8 counterexample input: a POST whose body is the empty string. -/
def traceC8 : RequestTrace :=
  ApiClient.request cfgC8 (fun _ _ _ => .hangs) "/x"
    { method := some "POST", body := some (.str "") }

/-- The C2 scenario's client configuration. -/
def cfgC2 : ApiClientConfig := { baseUrl := "https://api.test/", locale := .es }

/-- The C2 payload `[{id:"1"}]`. -/
def payloadC2 : Js := .arr [.obj [("id", .str "1")]]

/-- The C2 scenario's transport response: status 200, `content-type:
application/json`, body parsing to the payload — and, as in the claim, no
content-length header. -/
def respC2 : Response :=
  { status := 200, statusText := "OK",
    headers := [("content-type", "application/json")], json := .ok payloadC2 }

/-- The C2 scenario's response with a non-empty content-length header, the
input at which the amended claim recovers the scenario's expected result. -/
def respC2b : Response :=
  { status := 200, statusText := "OK",
    headers := [("content-type", "application/json"),
      ("content-length", "9")],
    json := .ok payloadC2 }

/-- The C6 counterexample's response: 2xx, content-length zero. -/
def respC6 : Response :=
  { status := 200, statusText := "OK",
    headers := [("content-length", "0"), ("content-type", "text/plain")],
    text := "" }

/-- A 204 response carrying a Content-Type header. -/
def respC6b : Response :=
  { status := 204, statusText := "No Content",
    headers := [("content-type", "application/json")] }

/-- The C9 witness inputs: a logging client and a connectivity failure. -/
def cfgC9 : ApiClientConfig := { baseUrl := "https://api.test/", hasLogger := true }

/-- The connectivity failure of the C9 witness (`fetch`'s `TypeError`). -/
def errC9 : JsError := { name := "TypeError", message := "Failed to fetch" }

/-- The C10 witness overrides: the es message for 404 overridden to the empty
string. -/
def emC10 : Locale → List (Nat × String) := fun loc =>
  match loc with
  | .es => [(404, "")]
  | .en => []

/-- The C10 witness configuration. -/
def cfgC10 : ApiClientConfig :=
  { baseUrl := "https://api.test/", locale := .es, errorMessages := emC10 }

/-- The C4 scenario configuration: client locale es, no overrides. -/
def cfgC4 : ApiClientConfig := { baseUrl := "https://api.test/", locale := .es }

/-- The C4 scenario response: a bare 404. -/
def respC4 : Response := { status := 404, statusText := "Not Found" }

/-- The C4 scenario call: `errorLocale: "en"`. -/
def traceC4 : RequestTrace :=
  ApiClient.request cfgC4 (fun _ _ _ => .settles respC4) "/users"
    { errorLocale := some .en }

/-- The ClientError the C4 scenario must produce. -/
def errC4 : ApiError :=
  { status := 404, statusText := "Not Found",
    message := "Resource not found.", body := .textBody "",
    isTimeout := false }

/-!  Lemmas about the embedding, followed by the claim theorems. -/

theorem hget_hset (hs : HeaderList) (k v k2 : String)
    (h : jsToLower k2 = jsToLower k) : hget (hset hs k v) k2 = some v := by
  induction hs with
  | nil => simp [hset, hget, List.find?, h]
  | cons p rest ih =>
      obtain ⟨k0, v0⟩ := p
      by_cases hk : k0 = jsToLower k
      · simp [hset, hk, hget, List.find?, h]
      · simp only [hset, if_neg hk, hget, h] at ih ⊢
        rw [List.find?_cons_of_neg]
        · exact ih
        · simp [hk]

theorem lookup_mem {l : List (Nat × String)} {a : Nat} {b : String}
    (h : l.lookup a = some b) : (a, b) ∈ l := by
  induction l with
  | nil => simp [List.lookup] at h
  | cons p rest ih =>
      obtain ⟨k0, v0⟩ := p
      by_cases hk : a = k0
      · subst hk
        simp [List.lookup] at h
        simp [h]
      · have hb : (a == k0) = false := beq_eq_false_iff_ne.mpr hk
        rw [List.lookup, hb] at h
        exact List.mem_cons_of_mem _ (ih h)

theorem default_messages_ne_empty (loc : Locale) (s : Nat) (m : String)
    (h : (DEFAULT_ERROR_MESSAGES loc).lookup s = some m) : m ≠ "" := by
  have hm := lookup_mem h
  cases loc <;> fin_cases hm <;> decide

theorem mem_dropWhile_of_not {α} {p : α → Bool} {c : α} (hc : p c = false) :
    ∀ {l : List α}, c ∈ l → c ∈ l.dropWhile p := by
  intro l
  induction l with
  | nil => intro h; exact absurd h (List.not_mem_nil c)
  | cons a as ih =>
      intro hmem
      by_cases hp : p a = true
      · rw [List.dropWhile_cons_of_pos hp]
        rcases List.mem_cons.mp hmem with rfl | h
        · exact absurd hp (by simp [hc])
        · exact ih h
      · rw [List.dropWhile_cons_of_neg (by simpa using hp)]
        exact hmem

theorem jsTrim_ne_empty {s : String} {c : Char} (hc : c.isWhitespace = false)
    (hmem : c ∈ s.data) : jsTrim s ≠ "" := by
  intro hcon
  have h1 : c ∈ (s.data.dropWhile Char.isWhitespace) :=
    mem_dropWhile_of_not hc hmem
  have h2 : c ∈ ((s.data.dropWhile Char.isWhitespace).reverse.dropWhile
      Char.isWhitespace).reverse := by
    rw [List.mem_reverse]
    exact mem_dropWhile_of_not hc (List.mem_reverse.mpr h1)
  have hdata := congrArg String.data hcon
  simp only [jsTrim] at hdata
  rw [hdata] at h2
  exact absurd h2 (List.not_mem_nil c)

theorem generic_ne_empty (loc : Locale) (status : Nat) (text : String) :
    GENERIC_ERROR_MESSAGE loc status text ≠ "" := by
  cases loc
  · apply jsTrim_ne_empty (c := 'N') (by decide)
    simp only [String.data_append, List.mem_append]
    exact Or.inl (Or.inl (Or.inl (Or.inl (by decide))))
  · apply jsTrim_ne_empty (c := 'E') (by decide)
    simp only [String.data_append, List.mem_append]
    exact Or.inl (Or.inl (Or.inl (Or.inl (by decide))))

theorem resolveFromLocales_some_ne_empty
    (overrides : Locale → List (Nat × String)) (status : Nat)
    (locs : List Locale) (m : String)
    (h : ApiClient.resolveFromLocales overrides status locs = some m) :
    m ≠ "" := by
  induction locs with
  | nil => simp [ApiClient.resolveFromLocales] at h
  | cons loc rest ih =>
      rw [ApiClient.resolveFromLocales] at h
      cases hd : ApiClient.mergedDictLookup overrides loc status with
      | none => rw [hd] at h; exact ih h
      | some v =>
          rw [hd] at h
          change (if v = "" then ApiClient.resolveFromLocales overrides status rest
            else some v) = some m at h
          by_cases hv : v = ""
          · rw [if_pos hv] at h; exact ih h
          · rw [if_neg hv] at h
            cases h
            exact hv

theorem resolveErrorMessage_ne_empty (cfg : ApiClientConfig) (status : Nat)
    (text : String) (ov : Option Locale) :
    ApiClient.resolveErrorMessage cfg status text ov ≠ "" := by
  rw [ApiClient.resolveErrorMessage]
  cases h : ApiClient.resolveFromLocales cfg.errorMessages status
      (ApiClient.getLocalePreference cfg.locale ov) with
  | none => exact generic_ne_empty cfg.locale status text
  | some m => exact resolveFromLocales_some_ne_empty _ _ _ _ h

theorem resolve_eq_firstHit (overrides : Locale → List (Nat × String))
    (status : Nat) (locs : List Locale)
    (hne : ∀ loc s m, (overrides loc).lookup s = some m → m ≠ "") :
    ApiClient.resolveFromLocales overrides status locs =
      firstHitSpec (fun loc => ApiClient.mergedDictLookup overrides loc status)
        locs := by
  induction locs with
  | nil => rfl
  | cons loc rest ih =>
      rw [ApiClient.resolveFromLocales, firstHitSpec]
      cases hd : ApiClient.mergedDictLookup overrides loc status with
      | none => exact ih
      | some v =>
          have hv : v ≠ "" := by
            rw [ApiClient.mergedDictLookup] at hd
            cases ho : (overrides loc).lookup status with
            | some w =>
                rw [ho] at hd
                cases hd
                exact hne loc status _ ho
            | none =>
                rw [ho] at hd
                exact default_messages_ne_empty loc status v hd
          change (if v = "" then ApiClient.resolveFromLocales overrides status rest
            else some v) = some v
          rw [if_neg hv]

theorem jsStartsWith_sep (p : String) : jsStartsWith ("/" ++ p) "/" = true := by
  simp [jsStartsWith, String.data_append, List.isPrefixOf]

theorem jsSliceFrom1_sep (p : String) : jsSliceFrom1 ("/" ++ p) = p := by
  simp [jsSliceFrom1, String.data_append]

/-- C1: when the transport never settles before the effective timeout, the
outcome is indeed the 408 `ApiError` with the timeout flag set and a null
body — but the cancellation signal handed to the transport is the internal
controller's signal and it never fires, because the source never calls
`controller.abort()`.  This contradicts the claim's cancellation clause. -/
theorem C1_timeout_maps_to_408_but_signal_never_fires :
    traceC1.outcome = .clientError
      { status := 408, statusText := "Timeout", message := "Request timeout",
        body := .nullBody, isTimeout := true } ∧
    traceC1.init.signal = .internalSignal ∧
    traceC1.internalAbortFired = false := by
  refine ⟨rfl, rfl, rfl⟩

/-- C5 counterexample: the caller's token (`callerSignal 7`) is not the
signal the transport receives — the dispatched init carries the pipeline's
internal signal instead, so the claim's pass-through is false. -/
theorem C5_counterexample :
    traceC5.init.signal ≠ .callerSignal 7 ∧
    traceC5.init.signal = .internalSignal := by
  refine ⟨by decide, rfl⟩

/-- C5 (amended): whatever cancellation token the caller supplies in the
options, the dispatched init's signal is always the pipeline's internal
controller's signal — `{...rest, headers, body, signal}` writes `signal`
after spreading the remaining options, discarding the caller's token. -/
theorem C5_signal_always_internal (cfg : ApiClientConfig) (tr : Transport)
    (path : String) (opts : RequestOptions)
    (h : cfg.reqInterceptor = none) :
    (ApiClient.request cfg tr path opts).init.signal = .internalSignal := by
  simp [ApiClient.request, h, ApiClient.buildInit]

/-- C5 witness: the amended statement at the counterexample's input. -/
theorem C5_witness :
    (ApiClient.request cfgC5 (fun _ _ _ => .hangs) "/x"
      { signal := some (.callerSignal 7) }).init.signal = .internalSignal :=
  C5_signal_always_internal cfgC5 (fun _ _ _ => .hangs) "/x"
    { signal := some (.callerSignal 7) } rfl

/-- C7: stripping the leading separator makes `path` and `"/" ++ path`
resolve to the identical final URL, for every base address, query-string
serializer and parameter record — an absolute-looking path cannot escape the
base prefix because it is re-interpreted relative to the base directory. -/
theorem C7_leading_separator_irrelevant (baseUrl : String)
    (qss : Js → String) (path : String) (params : Option Js)
    (h : jsStartsWith path "/" = false) :
    ApiClient.buildUrl baseUrl qss ("/" ++ path) params =
      ApiClient.buildUrl baseUrl qss path params := by
  simp only [ApiClient.buildUrl, jsStartsWith_sep, h, jsSliceFrom1_sep,
    Bool.false_eq_true, if_true, if_false]

/-- C7 witness: `/users` and `users` against `https://api.test`. -/
theorem C7_witness :
    ApiClient.buildUrl "https://api.test" (fun _ => "") ("/" ++ "users") none =
      ApiClient.buildUrl "https://api.test" (fun _ => "") "users" none :=
  C7_leading_separator_irrelevant "https://api.test" (fun _ => "") "users" none
    (by decide)

/-- C3 counterexample: the merged headers carry `Content-Type: text/plain`,
yet the dispatched headers carry `application/json` — `headers.set` always
overwrites, so the claim's "never overwritten" is false. -/
theorem C3_counterexample :
    hget (ApiClient.mergeHeaders cfgC3.defaultHeaders
        (some [("Content-Type", "text/plain")])) "Content-Type" =
      some "text/plain" ∧
    hget traceC3.init.headers "Content-Type" = some "application/json" ∧
    ("application/json" : String) ≠ "text/plain" := by
  refine ⟨rfl, rfl, by decide⟩

/-- C3 (amended): when a JS-truthy prepared body exists and the raw body is
not multipart form data, the pipeline unconditionally sets
`Content-Type: application/json`, overwriting any merged value; when no
prepared body exists, or the body is form data, the merged headers are
dispatched untouched (so bodiless requests never receive the header). -/
theorem C3_content_type_injection (cfg : ApiClientConfig) (tr : Transport)
    (path : String) (opts : RequestOptions)
    (h : cfg.reqInterceptor = none) :
    (ApiClient.preparedFalsy (ApiClient.prepareBody opts.body) = false →
      ApiClient.isFormData opts.body = false →
      hget (ApiClient.request cfg tr path opts).init.headers "Content-Type" =
        some "application/json") ∧
    (ApiClient.prepareBody opts.body = none →
      (ApiClient.request cfg tr path opts).init.headers =
        ApiClient.mergeHeaders cfg.defaultHeaders opts.headers) ∧
    (ApiClient.isFormData opts.body = true →
      (ApiClient.request cfg tr path opts).init.headers =
        ApiClient.mergeHeaders cfg.defaultHeaders opts.headers) := by
  refine ⟨fun h1 h2 => ?_, fun h1 => ?_, fun h1 => ?_⟩
  · simp [ApiClient.request, h, ApiClient.buildInit, h1, h2]
    exact hget_hset _ _ _ _ rfl
  · simp [ApiClient.request, h, ApiClient.buildInit, h1, ApiClient.preparedFalsy]
  · simp [ApiClient.request, h, ApiClient.buildInit, h1]

/-- C3 witness: the amended statement at the counterexample's input, for the
truthy-body clause. -/
theorem C3_witness :
    hget (ApiClient.request cfgC3 (fun _ _ _ => .hangs) "/x"
      { method := some "POST", headers := some [("Content-Type", "text/plain")],
        body := some (.str "hello") }).init.headers "Content-Type" =
      some "application/json" :=
  (C3_content_type_injection cfgC3 (fun _ _ _ => .hangs) "/x"
    { method := some "POST", headers := some [("Content-Type", "text/plain")],
      body := some (.str "hello") } rfl).1 rfl rfl

/-- C8 counterexample: the empty string is a string body, but it is JS-falsy,
so `prepareBody` drops it — the transport receives no body at all rather
than the string unchanged, refuting the unconditional pass-through clause. -/
theorem C8_counterexample :
    traceC8.init.body = none ∧
    (none : Option PreparedBody) ≠ some (.str "") := by
  refine ⟨rfl, by simp⟩

/-- C8 (amended): non-empty strings, blobs, array buffers and form-data pass
through unchanged (form data without a Content-Type injection); a plain
object body is dispatched as its JSON serialization with
`Content-Type: application/json`; an absent body — and likewise the JS-falsy
empty-string body — produces no body and leaves the merged headers
untouched. -/
theorem C8_body_preparation (cfg : ApiClientConfig) (tr : Transport)
    (path : String) (opts : RequestOptions)
    (h : cfg.reqInterceptor = none) :
    (∀ s, s ≠ "" → opts.body = some (.str s) →
      (ApiClient.request cfg tr path opts).init.body = some (.str s)) ∧
    (∀ i, opts.body = some (.blob i) →
      (ApiClient.request cfg tr path opts).init.body = some (.blob i)) ∧
    (∀ i, opts.body = some (.arrayBuffer i) →
      (ApiClient.request cfg tr path opts).init.body = some (.arrayBuffer i)) ∧
    (∀ i, opts.body = some (.formData i) →
      (ApiClient.request cfg tr path opts).init.body = some (.formData i) ∧
      (ApiClient.request cfg tr path opts).init.headers =
        ApiClient.mergeHeaders cfg.defaultHeaders opts.headers) ∧
    (∀ fs, opts.body = some (.obj fs) →
      (ApiClient.request cfg tr path opts).init.body =
        some (.str (Js.stringify (.obj fs))) ∧
      hget (ApiClient.request cfg tr path opts).init.headers "Content-Type" =
        some "application/json") ∧
    ((opts.body = none ∨ opts.body = some (.str "")) →
      (ApiClient.request cfg tr path opts).init.body = none ∧
      (ApiClient.request cfg tr path opts).init.headers =
        ApiClient.mergeHeaders cfg.defaultHeaders opts.headers) := by
  refine ⟨fun s hs hb => ?_, fun i hb => ?_, fun i hb => ?_, fun i hb => ?_,
    fun fs hb => ?_, fun hb => ?_⟩
  · simp [ApiClient.request, h, ApiClient.buildInit, hb,
      ApiClient.prepareBody, ApiClient.bodyFalsy, hs]
  · simp [ApiClient.request, h, ApiClient.buildInit, hb,
      ApiClient.prepareBody, ApiClient.bodyFalsy]
  · simp [ApiClient.request, h, ApiClient.buildInit, hb,
      ApiClient.prepareBody, ApiClient.bodyFalsy]
  · constructor <;>
      simp [ApiClient.request, h, ApiClient.buildInit, hb,
        ApiClient.prepareBody, ApiClient.bodyFalsy, ApiClient.isFormData,
        ApiClient.preparedFalsy]
  · have hns : Js.stringify (.obj fs) ≠ "" := by
      intro hcon
      have := congrArg String.data hcon
      simp [Js.stringify, String.data_append] at this
    constructor
    · simp [ApiClient.request, h, ApiClient.buildInit, hb,
        ApiClient.prepareBody, ApiClient.bodyFalsy]
    · simp [ApiClient.request, h, ApiClient.buildInit, hb,
        ApiClient.prepareBody, ApiClient.bodyFalsy, ApiClient.isFormData,
        ApiClient.preparedFalsy, hns]
      exact hget_hset _ _ _ _ rfl
  · rcases hb with hb | hb <;>
      simp [ApiClient.request, h, ApiClient.buildInit, hb,
        ApiClient.prepareBody, ApiClient.bodyFalsy, ApiClient.preparedFalsy]

/-- C8 witness: the amended statement's plain-object clause at a concrete
input. -/
theorem C8_witness :
    (ApiClient.request cfgC8 (fun _ _ _ => .hangs) "/x"
      { method := some "POST", body := some (.obj [("a", .num 1)]) }).init.body =
      some (.str (Js.stringify (.obj [("a", .num 1)]))) ∧
    hget (ApiClient.request cfgC8 (fun _ _ _ => .hangs) "/x"
      { method := some "POST",
        body := some (.obj [("a", .num 1)]) }).init.headers "Content-Type" =
      some "application/json" :=
  ((C8_body_preparation cfgC8 (fun _ _ _ => .hangs) "/x"
    { method := some "POST", body := some (.obj [("a", .num 1)]) }
    rfl).2.2.2.2.1) [("a", .num 1)] rfl

/-- C2 counterexample: with the claim's exact response — which carries no
content-length header — `get("/users")` resolves to `undefined`, not to the
JSON-parsed payload: the falsy content-length check fires before the
content-type inspection. -/
theorem C2_counterexample :
    (ApiClient.get cfgC2 (fun _ _ _ => .settles respC2) "/users").outcome =
      .ok .undef ∧
    Outcome.ok .undef ≠ .ok (.jsonVal payloadC2) := by
  refine ⟨rfl, by simp⟩

/-- C2 (amended): for every 2xx, non-204 response whose content-length header
is present and non-empty, a content-type containing "json" case-insensitively
resolves to the JSON-parsed body, and any other content-type resolves to the
plain text body. -/
theorem C2_json_interpretation (cfg : ApiClientConfig) (path : String)
    (opts : RequestOptions) (r : Response)
    (hni : cfg.respInterceptor = none) (hok : r.ok = true)
    (h204 : r.status ≠ 204)
    (hcl : ApiClient.strOptFalsy (hget r.headers "content-length") = false) :
    (∀ j, jsIncludes (jsToLower ((hget r.headers "content-type").getD ""))
        "json" = true → r.json = .ok j →
      (ApiClient.request cfg (fun _ _ _ => .settles r) path opts).outcome =
        .ok (.jsonVal j)) ∧
    (jsIncludes (jsToLower ((hget r.headers "content-type").getD ""))
        "json" = false →
      (ApiClient.request cfg (fun _ _ _ => .settles r) path opts).outcome =
        .ok (.textVal r.text)) := by
  constructor
  · intro j hct hj
    simp [ApiClient.request, ApiClient.dispatch, hni, ApiClient.interpret,
      hok, h204, hcl, hct, hj]
  · intro hct
    simp [ApiClient.request, ApiClient.dispatch, hni, ApiClient.interpret,
      hok, h204, hcl, hct]

/-- C2 witness: with content-length present, `get("/users")` resolves to the
parsed payload `[{id:"1"}]`. -/
theorem C2_witness :
    (ApiClient.get cfgC2 (fun _ _ _ => .settles respC2b) "/users").outcome =
      .ok (.jsonVal payloadC2) :=
  (C2_json_interpretation cfgC2 "/users" { method := some "GET" } respC2b
    rfl rfl (by decide) rfl).1 payloadC2 rfl rfl

/-- C6 counterexample: a 200 response with `content-length: 0` does NOT
resolve to `undefined` — "0" is a non-empty string, hence JS-truthy, so the
pipeline proceeds to parse and resolves to the (empty) text body. -/
theorem C6_counterexample :
    (ApiClient.request { baseUrl := "https://api.test/" }
        (fun _ _ _ => .settles respC6) "/x" {}).outcome = .ok (.textVal "") ∧
    Outcome.ok (.textVal "") ≠ .ok .undef := by
  refine ⟨rfl, by simp⟩

/-- C6 (amended): for every 2xx response, status 204 or an absent-or-empty
content-length header resolves to `undefined` without touching the body —
in particular a 204 yields `undefined` whatever the Content-Type — but a
content-length of `"0"` is truthy and does not trigger this path. -/
theorem C6_no_content_undefined (cfg : ApiClientConfig) (path : String)
    (opts : RequestOptions) (r : Response)
    (hni : cfg.respInterceptor = none) (hok : r.ok = true)
    (hnc : r.status = 204 ∨
      ApiClient.strOptFalsy (hget r.headers "content-length") = true) :
    (ApiClient.request cfg (fun _ _ _ => .settles r) path opts).outcome =
      .ok .undef := by
  rcases hnc with hnc | hnc <;>
    simp [ApiClient.request, ApiClient.dispatch, hni, ApiClient.interpret,
      hok, hnc]

/-- C6 witness: a 204 response with a Content-Type header still resolves to
`undefined`. -/
theorem C6_witness :
    (ApiClient.request { baseUrl := "https://api.test/" }
        (fun _ _ _ => .settles respC6b) "/x" {}).outcome = .ok .undef :=
  C6_no_content_undefined { baseUrl := "https://api.test/" } "/x" {} respC6b
    rfl rfl (Or.inl rfl)

/-- C9: a transport rejection whose name is not `"AbortError"` is rethrown
unchanged — never wrapped into an `ApiError` — and, when a logger is
configured, an error-level entry is emitted first. -/
theorem C9_rejection_passthrough (cfg : ApiClientConfig) (path : String)
    (opts : RequestOptions) (e : JsError) (hn : e.name ≠ "AbortError") :
    (ApiClient.request cfg (fun _ _ _ => .rejects e) path opts).outcome =
      .raised e ∧
    (cfg.hasLogger = true →
      LogEvent.errorLog e.name ∈
        (ApiClient.request cfg (fun _ _ _ => .rejects e) path opts).logs) := by
  constructor
  · simp [ApiClient.request, ApiClient.dispatch, ApiClient.applyCatch,
      ApiClient.errName, hn]
  · intro hl
    simp [ApiClient.request, ApiClient.dispatch, ApiClient.applyCatch,
      ApiClient.errName, hn, hl]

/-- C9 witness: a `TypeError` rejection propagates as-is and is logged. -/
theorem C9_witness :
    (ApiClient.request cfgC9 (fun _ _ _ => .rejects errC9) "/x" {}).outcome =
      .raised errC9 ∧
    LogEvent.errorLog errC9.name ∈
      (ApiClient.request cfgC9 (fun _ _ _ => .rejects errC9) "/x" {}).logs :=
  ⟨(C9_rejection_passthrough cfgC9 "/x" {} errC9 (by decide)).1,
   (C9_rejection_passthrough cfgC9 "/x" {} errC9 (by decide)).2 rfl⟩

/-- C10: an empty-string message entry in the merged per-locale dictionary
(which shadows any built-in default for that status and locale) is JS-falsy,
so resolution skips that locale and falls through to the rest of the
preference list; and the resolved message is never the empty string, since
every truthy dictionary hit is non-empty and the generic template is
non-empty. -/
theorem C10_empty_override_skipped (cfg : ApiClientConfig) (status : Nat)
    (text : String) (ov : Option Locale) :
    (∀ loc rest,
      ApiClient.mergedDictLookup cfg.errorMessages loc status = some "" →
      ApiClient.resolveFromLocales cfg.errorMessages status (loc :: rest) =
        ApiClient.resolveFromLocales cfg.errorMessages status rest) ∧
    ApiClient.resolveErrorMessage cfg status text ov ≠ "" := by
  constructor
  · intro loc rest hd
    rw [ApiClient.resolveFromLocales, hd]
    change (if ("" : String) = "" then
      ApiClient.resolveFromLocales cfg.errorMessages status rest
      else some "") = ApiClient.resolveFromLocales cfg.errorMessages status rest
    rw [if_pos rfl]
  · exact resolveErrorMessage_ne_empty cfg status text ov

/-- C10 witness: with the es 404 message overridden to `""`, resolution skips
es (the built-in es default is shadowed) and the result is non-empty. -/
theorem C10_witness :
    ApiClient.resolveFromLocales emC10 404 (Locale.es :: [Locale.en]) =
      ApiClient.resolveFromLocales emC10 404 [Locale.en] ∧
    ApiClient.resolveErrorMessage cfgC10 404 "Not Found" none ≠ "" :=
  ⟨(C10_empty_override_skipped cfgC10 404 "Not Found" none).1 .es [.en] rfl,
   (C10_empty_override_skipped cfgC10 404 "Not Found" none).2⟩

/-- C4: provided no configured override is the empty string (the regime the
claim describes; empty overrides are claim C10's), the resolved message is
the first dictionary hit over the de-duplicated preference list
[override?, configured locale, es, en] — dictionaries being the configured
overrides merged over the built-in defaults, overrides winning — with the
generic template as fallback; and the scenario: `errorLocale: "en"` on a 404
against an es-configured client yields "Resource not found.". -/
theorem C4_locale_preference_resolution (cfg : ApiClientConfig) (status : Nat)
    (text : String) (ov : Option Locale)
    (hne : ∀ loc s m, (cfg.errorMessages loc).lookup s = some m → m ≠ "") :
    ApiClient.resolveErrorMessage cfg status text ov =
      (firstHitSpec
        (fun loc => ApiClient.mergedDictLookup cfg.errorMessages loc status)
        (ApiClient.dedupFirst (ov.toList ++ [cfg.locale, .es, .en]))).getD
        (GENERIC_ERROR_MESSAGE cfg.locale status text) ∧
    traceC4.outcome = .clientError errC4 := by
  constructor
  · rw [ApiClient.resolveErrorMessage, ApiClient.getLocalePreference,
      resolve_eq_firstHit _ _ _ hne]
    cases firstHitSpec
        (fun loc => ApiClient.mergedDictLookup cfg.errorMessages loc status)
        (ApiClient.dedupFirst (ov.toList ++ [cfg.locale, .es, .en])) <;> rfl
  · rfl

/-- C4 witness: the resolution shape and the scenario at the scenario's own
inputs. -/
theorem C4_witness :
    ApiClient.resolveErrorMessage cfgC4 404 "Not Found" (some .en) =
      (firstHitSpec
        (fun loc => ApiClient.mergedDictLookup cfgC4.errorMessages loc 404)
        (ApiClient.dedupFirst ((some Locale.en).toList ++
          [cfgC4.locale, .es, .en]))).getD
        (GENERIC_ERROR_MESSAGE cfgC4.locale 404 "Not Found") ∧
    traceC4.outcome = .clientError errC4 :=
  C4_locale_preference_resolution cfgC4 404 "Not Found" (some .en)
    (fun _ _ _ hx => nomatch hx)

end NubiLab
